import Mathlib

/-!
# Verification of the Slitheryn Multi-Backend Model Evaluation Harness

A shallow embedding of the harness described by the repository's
specification, together with an embedding of `src/setup.py`, and proofs of
the specified properties.  The harness components (Response Scorer, Backend
Adapter, Run Orchestrator, Aggregator/Ranker) are not shipped under `src/`;
their definitions below are modelled from the specification's words, as
marked in each doc comment.
-/

namespace Slitheryn

/-! ## Case-insensitive substring matching (Response Scorer primitive) -/

/-- `matchAt pat cs` is true when `pat` occurs at the head of `cs`. -/
def matchAt : List Char → List Char → Bool
  | [], _ => true
  | _ :: _, [] => false
  | a :: as, b :: bs => a == b && matchAt as bs

/-- `subSearch pat cs` is true when `pat` occurs contiguously anywhere in `cs`. -/
def subSearch (pat : List Char) : List Char → Bool
  | [] => pat.isEmpty
  | c :: cs => matchAt pat (c :: cs) || subSearch pat cs

/-- Lower-cased character list of a string. -/
def lowerChars (s : String) : List Char :=
  s.toList.map Char.toLower

/-- Modelled from the spec: case-insensitive keyword containment used by the
Response Scorer ("case-insensitive substring/keyword matching against a fixed
rubric", spec 4.3). -/
def containsKw (text kw : String) : Bool :=
  subSearch (lowerChars kw) (lowerChars text)

/-! ## Data model -/

/-- Modelled from the spec: a TestCase of the Test Corpus (spec 3): name,
source code text, prompt template, expected finding tags, difficulty label,
and the `is_secure` flag. -/
structure TestCase where
  name : String
  code : String
  promptTemplate : String
  expectedFindings : List String
  difficulty : String
  is_secure : Bool
deriving DecidableEq, Repr

/-- Modelled from the spec: the backend kinds of the Backend Adapter
(spec 4.2): completion-style and chat-style. -/
inductive BackendKind
  | completion
  | chat
deriving DecidableEq, Repr

/-- Modelled from the spec: a ModelDescriptor (spec 3): model name, backend
kind, endpoint, optional size estimate used only for reporting. -/
structure ModelDescriptor where
  name : String
  kind : BackendKind
  endpoint : String
  sizeEstimate : Option Nat
deriving DecidableEq, Repr

/-- Modelled from the spec: a ScoreBreakdown (spec 3): a numeric score,
a duplicate-free set of named findings, and the elapsed wall-clock time of
the backend call. -/
structure ScoreBreakdown where
  score : Nat
  findings : List String
  elapsed : Rat
deriving DecidableEq, Repr

/-! ## Response Scorer rubric -/

/-- Modelled from the spec: one rubric category (spec 4.3, design note in
spec 9): a name, a disjunction of keyword triggers, and a fixed point value. -/
structure Category where
  name : String
  keywords : List String
  points : Nat
deriving DecidableEq, Repr

/-- Modelled from the spec: keyword triggers that count as naming a
vulnerability; on an `is_secure` case these are false-positive claims
(spec 4.3: "penalized (or zeroed) for false-positive vulnerability claims"). -/
def falsePositiveKeywords : List String :=
  ["reentrancy", "overflow", "underflow", "exploit", "vulnerability found",
   "vulnerable", "attack vector", "access control flaw"]

/-- Modelled from the spec: the canonical rubric for a vulnerable test case
(spec 4.3): primary vulnerability identification (highest weight, 40 pts,
triggered by the case's expected finding tags), understanding of the code
defect pattern (25 pts), fix/mitigation quality (25 pts), and severity or
risk assessment (10 pts); the point values sum to exactly 100. -/
def vulnRubric (tc : TestCase) : List Category :=
  [⟨"vulnerability_identified", tc.expectedFindings, 40⟩,
   ⟨"pattern_understood",
     ["external call", "state update", "before updating", "call order"], 25⟩,
   ⟨"fix_suggested",
     ["check", "effects", "interactions", "mutex", "guard", "fix"], 25⟩,
   ⟨"severity_assessed", ["critical", "high", "severity", "risk"], 10⟩]

/-- Modelled from the spec: the inverted rubric for an `is_secure` test case
(spec 4.3): points are awarded for correctly reporting that there is no
exploitable issue (90 pts) and for a risk assessment (10 pts); the values sum
to exactly 100, and false-positive vulnerability claims zero the
`no_vulnerability` award (see `score`). -/
def secureRubric : List Category :=
  [⟨"no_vulnerability",
     ["no vulnerabilities", "no vulnerability", "not vulnerable",
      "no exploitable", "secure"], 90⟩,
   ⟨"severity_assessed", ["severity", "risk", "low"], 10⟩]

/-- Modelled from the spec: the rubric chosen for a test case; it inverts on
`is_secure` cases (spec 4.3). -/
def rubricFor (tc : TestCase) : List Category :=
  if tc.is_secure then secureRubric else vulnRubric tc

/-- A category is awarded when any of its keyword triggers occurs in the
response text (case-insensitive). -/
def categoryAward (text : String) (c : Category) : Bool :=
  c.keywords.any (fun kw => containsKw text kw)

/-- True when the response text names a vulnerability. -/
def claimsVulnerability (text : String) : Bool :=
  falsePositiveKeywords.any (fun kw => containsKw text kw)

/-- The categories of the rubric actually awarded for a response text: those
triggered by a keyword, except that on an `is_secure` case a false-positive
vulnerability claim zeroes the `no_vulnerability` award. -/
def awardedCats (text : String) (tc : TestCase) : List Category :=
  let triggered := (rubricFor tc).filter (categoryAward text)
  if tc.is_secure && claimsVulnerability text then
    triggered.filter (fun c => c.name ≠ "no_vulnerability")
  else triggered

/-- Modelled from the spec: the Response Scorer (spec 4.3):
`score(response_text, test_case) -> ScoreBreakdown`, a pure function; each
awarded category contributes its fixed point value and its name as a finding.
The elapsed field is filled in by the Run Orchestrator, and is 0 here. -/
def score (text : String) (tc : TestCase) : ScoreBreakdown :=
  { score := ((awardedCats text tc).map Category.points).sum,
    findings := (awardedCats text tc).map Category.name,
    elapsed := 0 }

/-! ## Backend Adapter -/

/-- Modelled from the spec: classified failure reasons of the error taxonomy
(spec 7): transport error, timeout, protocol error (non-200 status or missing
response field). -/
inductive FailureKind
  | timeout
  | transportError
  | protocolError
deriving DecidableEq, Repr

/-- Modelled from the spec: the raw behaviour of one backend network call as
observed at the adapter boundary (spec 6, spec 7): either no connection could
be made, or the backend answered with a status code, an optional extracted
text field (none when the expected field is missing from the envelope), and
an elapsed wall-clock time. -/
inductive RawOutcome
  | noConnection
  | response (status : Nat) (body : Option String) (elapsed : Rat)
deriving DecidableEq, Repr

/-- Modelled from the spec: the result of the adapter's one operation
(spec 4.2): `invoke(...) -> (text, elapsed) | Failure`. -/
inductive BackendResult
  | ok (text : String) (elapsed : Rat)
  | fail (f : FailureKind)
deriving DecidableEq, Repr

/-- Modelled from the spec: the Backend Adapter boundary (spec 4.2, 5, 7):
a call whose elapsed time exceeds the caller-supplied timeout is a `timeout`
Failure; no connection is a `transportError`; a non-200 status or a response
body missing the expected text field is a `protocolError`; otherwise the
extracted text and elapsed time are returned.  Every error is converted to a
typed Failure value rather than raised. -/
def invoke (raw : RawOutcome) (tmo : Rat) : BackendResult :=
  match raw with
  | .noConnection => .fail .transportError
  | .response status body elapsed =>
    if tmo < elapsed then .fail .timeout
    else if status ≠ 200 then .fail .protocolError
    else
      match body with
      | none => .fail .protocolError
      | some text => .ok text elapsed

/-- A backend maps (model name, prompt) to the raw outcome of the one network
call the adapter issues for it. -/
def Backend := ModelDescriptor → String → RawOutcome

/-- Modelled from the spec: each prompt embeds the instruction set and the
code sample (spec 4.1). -/
def promptFor (tc : TestCase) : String :=
  tc.promptTemplate ++ tc.code

/-! ## Run Orchestrator -/

/-- Modelled from the spec: outcome held by a RunRecord (spec 3): either a
successful ScoreBreakdown or a classified failure reason. -/
inductive RunOutcome
  | success (sb : ScoreBreakdown)
  | failed (f : FailureKind)
deriving DecidableEq, Repr

/-- Modelled from the spec: a RunRecord (spec 3): one attempt, referencing a
ModelDescriptor and TestCase (by name) and a repetition index, holding its
RunOutcome. -/
structure RunRecord where
  modelName : String
  caseName : String
  rep : Nat
  outcome : RunOutcome
deriving DecidableEq, Repr

/-- True when the record holds a successful ScoreBreakdown. -/
def RunRecord.isSuccess (r : RunRecord) : Bool :=
  match r.outcome with
  | .success _ => true
  | .failed _ => false

/-- Modelled from the spec: one (model, test case, repetition) attempt of the
Run Orchestrator (spec 4.4): invoke the Backend Adapter with the
caller-supplied timeout, score a successful text with the Response Scorer
(capturing the elapsed time), and classify any adapter Failure into the
RunRecord instead of propagating it. -/
def runTriple (backend : Backend) (tmo : Rat) (m : ModelDescriptor)
    (tc : TestCase) (rep : Nat) : RunRecord :=
  match invoke (backend m (promptFor tc)) tmo with
  | .ok text elapsed =>
    ⟨m.name, tc.name, rep, .success { score text tc with elapsed := elapsed }⟩
  | .fail f => ⟨m.name, tc.name, rep, .failed f⟩

/-- Modelled from the spec: the batch of the Run Orchestrator (spec 4.4):
the cross-product of models, corpus-ordered test cases and consecutive
repetitions, one RunRecord per triple. -/
def runBatch (backend : Backend) (tmo : Rat) (models : List ModelDescriptor)
    (corpus : List TestCase) (reps : Nat) : List RunRecord :=
  models.flatMap fun m =>
    corpus.flatMap fun tc =>
      (List.range reps).map (runTriple backend tmo m tc)

/-! ## Aggregator -/

/-- Modelled from the spec: AggregateStats per model (spec 3): mean score,
mean elapsed time, efficiency, consistency, successful-run count, failed-run
count. -/
structure AggregateStats where
  meanScore : Rat
  meanTime : Rat
  efficiency : Rat
  consistency : Rat
  successCount : Nat
  failCount : Nat
deriving DecidableEq, Repr

/-- The per-case score of a successful record, as a rational. -/
def recordScore : RunRecord → Option Rat
  | ⟨_, _, _, .success sb⟩ => some (sb.score : Rat)
  | ⟨_, _, _, .failed _⟩ => none

/-- The elapsed time of a successful record. -/
def recordTime : RunRecord → Option Rat
  | ⟨_, _, _, .success sb⟩ => some sb.elapsed
  | ⟨_, _, _, .failed _⟩ => none

/-- Maximum of a list of rationals, 0 on the empty list. -/
def maxList : List Rat → Rat
  | [] => 0
  | x :: xs => max x (maxList xs)

/-- Minimum of a nonempty list of rationals, 0 on the empty list. -/
def minList : List Rat → Rat
  | [] => 0
  | [x] => x
  | x :: y :: xs => min x (minList (y :: xs))

/-- Modelled from the spec: consistency (spec 3): minimum score divided by
maximum score across cases, defined as 0 if the maximum is 0, so the
division by a zero maximum is never performed. -/
def consistencyOf (scores : List Rat) : Rat :=
  let mx := maxList scores
  if mx = 0 then 0 else minList scores / mx

/-- Modelled from the spec: the Aggregator's reduction of one model's
RunRecords into AggregateStats (spec 3, 4.5): means over the successful
records, efficiency = mean score divided by mean time (0 when the mean time
is 0), consistency via `consistencyOf`. -/
def aggregate (recs : List RunRecord) : AggregateStats :=
  let scores := recs.filterMap recordScore
  let times := recs.filterMap recordTime
  let meanScore := if scores.length = 0 then 0 else scores.sum / (scores.length : Rat)
  let meanTime := if times.length = 0 then 0 else times.sum / (times.length : Rat)
  { meanScore := meanScore
    meanTime := meanTime
    efficiency := if meanTime = 0 then 0 else meanScore / meanTime
    consistency := consistencyOf scores
    successCount := scores.length
    failCount := recs.length - scores.length }

/-! ## Ranker -/

/-- Modelled from the spec: the fixed ordered criterion list of the pairwise
comparison (spec 4.5): accuracy (mean score), mean response time (lower is
better), efficiency, consistency. -/
inductive Criterion
  | accuracy
  | speed
  | efficiency
  | consistency
deriving DecidableEq, Repr

/-- The ordered criterion list. -/
def criterionList : List Criterion :=
  [.accuracy, .speed, .efficiency, .consistency]

/-- The value a criterion reads off the AggregateStats. -/
def critValue (c : Criterion) (s : AggregateStats) : Rat :=
  match c with
  | .accuracy => s.meanScore
  | .speed => s.meanTime
  | .efficiency => s.efficiency
  | .consistency => s.consistency

/-- Modelled from the spec: `better c a b` is true when model stats `a` are
strictly better than `b` on criterion `c` (spec 4.5); mean response time is
the one criterion where lower is better. -/
def better (c : Criterion) (a b : AggregateStats) : Bool :=
  match c with
  | .speed => critValue c a < critValue c b
  | _ => critValue c b < critValue c a

/-- Modelled from the spec: criterion-points of `a` against `b` (spec 4.5):
one point per criterion on which `a` is strictly better; equal values award
no point to either. -/
def points (a b : AggregateStats) : Nat :=
  (criterionList.filter (fun c => better c a b)).length

/-- Modelled from the spec: the secondary composite tie-break score
(spec 4.5), a weighted sum of a domain-expertise indicator (taken here as
the consistency statistic) and efficiency. -/
def secondaryScore (s : AggregateStats) : Rat :=
  2 * s.consistency + s.efficiency

/-- Modelled from the spec: `a` is ranked ahead of `b` (spec 4.5): more
criterion-points wins the pairwise comparison; equal criterion-points fall
back to the secondary composite score. -/
def beats (a b : AggregateStats) : Bool :=
  if points b a < points a b then true
  else if points a b < points b a then false
  else secondaryScore b ≤ secondaryScore a

/-- Insert a named model into an already-ranked list. -/
def insertRanked (x : String × AggregateStats) :
    List (String × AggregateStats) → List (String × AggregateStats)
  | [] => [x]
  | y :: ys => if beats x.2 y.2 then x :: y :: ys else y :: insertRanked x ys

/-- Modelled from the spec: the full ranking (spec 4.5), produced by sorting
with the pairwise comparison and its tie-break. -/
def rankModels (ms : List (String × AggregateStats)) :
    List (String × AggregateStats) :=
  ms.foldr insertRanked []

/-! ## Embedding of src/setup.py -/

/-- The named arguments of the `setup(...)` call in `src/setup.py` that this
development tracks. -/
structure SetupArgs where
  name : String
  version : String
  long_description : String
  long_description_content_type : String
deriving DecidableEq, Repr

/-- Outcome of executing `src/setup.py`: the `open("README.md")` /
`f.read()` at lines 3-4 runs before `setup(...)`, so a missing or unreadable
README.md raises before `setup` is invoked (`fileError`); otherwise `setup`
receives the tracked arguments (`ran`). -/
inductive SetupOutcome
  | fileError
  | ran (args : SetupArgs)
deriving DecidableEq, Repr

/-- Embedding of `src/setup.py`: the module-level script, with the readable
UTF-8 content of `./README.md` (if any) as input.  Lines 3-4 bind
`long_description` to the entire file content; the `setup(...)` call at line
6 passes it through as the `long_description` argument alongside the literal
`name`, `version` and `long_description_content_type`. -/
def runSetupPy (readme : Option String) : SetupOutcome :=
  match readme with
  | none => .fileError
  | some content =>
    .ran { name := "slither-analyzer"
           version := "0.11.3"
           long_description := content
           long_description_content_type := "text/markdown" }

/-! ## Concrete fixtures for scenario properties -/

/-- A vulnerable demo test case expecting a reentrancy finding. -/
def mkVulnCase (n code : String) : TestCase :=
  ⟨n, code, "Find vulnerabilities, assess severity, suggest fixes in: ",
   ["reentrancy"], "medium", false⟩

/-- The five-case demo corpus of the orchestrator isolation scenario. -/
def demoCorpus : List TestCase :=
  [mkVulnCase "t1" "code1", mkVulnCase "t2" "code2", mkVulnCase "t3" "code3",
   mkVulnCase "t4" "code4", mkVulnCase "t5" "code5"]

/-- An `is_secure` demo test case (no expected findings). -/
def demoSecureCase : TestCase :=
  ⟨"sec1", "codeS", "Find vulnerabilities, assess severity, suggest fixes in: ",
   [], "easy", true⟩

/-- A demo model descriptor. -/
def demoModel : ModelDescriptor :=
  ⟨"demo-model", .completion, "http://localhost:11434", some 7⟩

/-- A backend failing deterministically on test case #2 of the demo corpus
only: its prompt gets no connection, every other prompt gets a well-formed
200 response in 2 seconds. -/
def failingBackend : Backend := fun _ prompt =>
  if prompt = promptFor (mkVulnCase "t2" "code2") then .noConnection
  else .response 200 (some "Reentrancy risk: check effects interactions") 2

/-- The run records of the isolation scenario: one model, the five-case demo
corpus, one repetition, a 30-second timeout, over `failingBackend`. -/
def demoRecs : List RunRecord :=
  runBatch failingBackend 30 [demoModel] demoCorpus 1

/-- Records of demo model A: one successful run, score 90, elapsed 10 s. -/
def recsA : List RunRecord :=
  [⟨"A", "t1", 0, .success ⟨90, ["reentrancy"], 10⟩⟩]

/-- Records of demo model B: one successful run, score 90, elapsed 20 s. -/
def recsB : List RunRecord :=
  [⟨"B", "t1", 0, .success ⟨90, ["reentrancy"], 20⟩⟩]

/-- Demo stats tying with `statsTieB` on every criterion but efficiency. -/
def statsTieA : AggregateStats := ⟨90, 10, 9, 1, 1, 0⟩

/-- Demo stats tying with `statsTieA` on every criterion but efficiency. -/
def statsTieB : AggregateStats := ⟨90, 10, 5, 1, 1, 0⟩

/-! ## Helper lemmas -/

/-- Filtering a rubric can only lower the summed point values. -/
theorem sum_points_filter_le (p : Category → Bool) (l : List Category) :
    ((l.filter p).map Category.points).sum ≤ (l.map Category.points).sum := by
  induction l with
  | nil => simp
  | cons c cs ih =>
    rw [List.filter_cons]
    by_cases h : p c
    · rw [if_pos h]
      simpa using Nat.add_le_add_left ih c.points
    · rw [if_neg h]
      exact le_trans ih (Nat.le_add_left _ _)

/-- A stronger filter awards at least the points of a weaker one. -/
theorem sum_points_filter_mono (p q : Category → Bool) (l : List Category)
    (h : ∀ c, p c = true → q c = true) :
    ((l.filter p).map Category.points).sum ≤
      ((l.filter q).map Category.points).sum := by
  induction l with
  | nil => simp
  | cons c cs ih =>
    rw [List.filter_cons, List.filter_cons]
    by_cases hp : p c
    · rw [if_pos hp, if_pos (h c hp)]
      simpa using Nat.add_le_add_left ih c.points
    · rw [if_neg hp]
      by_cases hq : q c
      · rw [if_pos hq]
        exact le_trans ih (Nat.le_add_left _ _)
      · rw [if_neg hq]
        exact ih

/-- Every rubric's category point values sum to exactly 100. -/
theorem rubric_points_sum (tc : TestCase) :
    ((rubricFor tc).map Category.points).sum = 100 := by
  unfold rubricFor
  by_cases h : tc.is_secure <;> simp [h, vulnRubric, secureRubric]

/-- Every member of a list is bounded by `maxList`. -/
theorem le_maxList_of_mem {l : List Rat} {x : Rat} (h : x ∈ l) :
    x ≤ maxList l := by
  induction l with
  | nil => cases h
  | cons a as ih =>
    rcases List.mem_cons.mp h with rfl | h2
    · simp [maxList]
    · exact le_trans (ih h2) (by simp [maxList])

/-- `minList` bounds every member of a list from below. -/
theorem minList_le_of_mem {l : List Rat} {x : Rat} (h : x ∈ l) :
    minList l ≤ x := by
  induction l with
  | nil => cases h
  | cons a as ih =>
    cases as with
    | nil =>
      rcases List.mem_cons.mp h with rfl | h2
      · exact le_refl _
      · cases h2
    | cons b bs =>
      rcases List.mem_cons.mp h with rfl | h2
      · exact min_le_left _ _
      · exact le_trans (min_le_right _ _) (ih h2)

/-- The identifying key of a `runTriple` record is its input triple. -/
theorem runTriple_key (b : Backend) (tmo : Rat) (m : ModelDescriptor)
    (tc : TestCase) (i : Nat) :
    ((runTriple b tmo m tc i).modelName, (runTriple b tmo m tc i).caseName,
      (runTriple b tmo m tc i).rep) = (m.name, tc.name, i) := by
  unfold runTriple
  cases invoke (b m (promptFor tc)) tmo <;> rfl

/-! ## Claims -/

/-- C1: for every test case the rubric's category point values sum to exactly
100, and the score of any response never exceeds 100 — by construction (the
score is a sum over a sub-selection of the rubric), with no clamping. -/
theorem rubric_sums_to_100_and_score_bounded (tc : TestCase) :
    ((rubricFor tc).map Category.points).sum = 100 ∧
      ∀ text, (score text tc).score ≤ 100 := by
  refine ⟨rubric_points_sum tc, fun text => ?_⟩
  show ((awardedCats text tc).map Category.points).sum ≤ 100
  unfold awardedCats
  by_cases hb : (tc.is_secure && claimsVulnerability text) = true
  · rw [if_pos hb]
    exact le_trans (sum_points_filter_le _ _)
      (le_trans (sum_points_filter_le _ _) (rubric_points_sum tc).le)
  · rw [if_neg hb]
    exact le_trans (sum_points_filter_le _ _) (rubric_points_sum tc).le

/-- C1 witness at a concrete input. -/
theorem rubric_sums_to_100_and_score_bounded_witness :
    ((rubricFor demoSecureCase).map Category.points).sum = 100 ∧
      (score "reentrancy" demoSecureCase).score ≤ 100 :=
  ⟨(rubric_sums_to_100_and_score_bounded demoSecureCase).1,
   (rubric_sums_to_100_and_score_bounded demoSecureCase).2 "reentrancy"⟩

/-- C2: scoring is deterministic — two calls of `score` on equal
(response text, test case) inputs yield identical ScoreBreakdowns. -/
theorem score_deterministic (t1 t2 : String) (tc1 tc2 : TestCase)
    (h1 : t1 = t2) (h2 : tc1 = tc2) : score t1 tc1 = score t2 tc2 := by
  subst h1
  subst h2
  rfl

/-- C2 witness at a concrete input. -/
theorem score_deterministic_witness :
    score "reentrancy found" (mkVulnCase "t1" "code1") =
      score "reentrancy found" (mkVulnCase "t1" "code1") :=
  score_deterministic "reentrancy found" "reentrancy found"
    (mkVulnCase "t1" "code1") (mkVulnCase "t1" "code1") rfl rfl

/-- C10: executing `src/setup.py` with no readable README.md fails before
`setup()` is invoked; with a README.md present, the `long_description`
argument passed to `setup()` is the entire content of the file. -/
theorem setupPy_long_description :
    runSetupPy none = .fileError ∧
      ∀ content, runSetupPy (some content) =
        .ran ⟨"slither-analyzer", "0.11.3", content, "text/markdown"⟩ :=
  ⟨rfl, fun _ => rfl⟩

/-- C3: a Failure on one (model, test case, repetition) triple never aborts
or skips sibling triples — with a backend failing deterministically on test
case #2 only, the batch over the 5-case demo corpus yields exactly 4
successful RunRecords and 1 Failure RunRecord (for case #2), and execution
reaches test case #5. -/
theorem orchestrator_isolation :
    demoRecs.length = 5 ∧
    (demoRecs.filter RunRecord.isSuccess).length = 4 ∧
    (demoRecs.filter (fun r => !r.isSuccess)).length = 1 ∧
    (demoRecs.filter (fun r => !r.isSuccess)).map RunRecord.caseName = ["t2"] ∧
    demoRecs.getLast? = some ⟨"demo-model", "t5", 0,
      .success ⟨75, ["vulnerability_identified", "fix_suggested",
        "severity_assessed"], 2⟩⟩ := by
  refine ⟨rfl, rfl, rfl, rfl, rfl⟩

/-- C8: the Run Orchestrator produces exactly one RunRecord for every
(model, test case, repetition) triple of the cross-product, in order, each
holding either a successful ScoreBreakdown or a classified failure reason. -/
theorem runBatch_cross_product (b : Backend) (tmo : Rat)
    (ms : List ModelDescriptor) (cs : List TestCase) (r : Nat) :
    ((runBatch b tmo ms cs r).map fun rec =>
        (rec.modelName, rec.caseName, rec.rep)) =
      (ms.flatMap fun m => cs.flatMap fun tc =>
        (List.range r).map fun i => (m.name, tc.name, i)) ∧
    ∀ rec ∈ runBatch b tmo ms cs r,
      (∃ sb, rec.outcome = .success sb) ∨ ∃ f, rec.outcome = .failed f := by
  constructor
  · simp only [runBatch, List.map_flatMap, List.map_map, Function.comp_def,
      runTriple_key]
  · intro rec _
    cases ho : rec.outcome with
    | success sb => exact Or.inl ⟨sb, rfl⟩
    | failed f => exact Or.inr ⟨f, rfl⟩

/-- C8 witness at a concrete input. -/
theorem runBatch_cross_product_witness :
    (((runBatch failingBackend 30 [demoModel] demoCorpus 1).map fun rec =>
        (rec.modelName, rec.caseName, rec.rep)) =
      [("demo-model", "t1", 0), ("demo-model", "t2", 0), ("demo-model", "t3", 0),
       ("demo-model", "t4", 0), ("demo-model", "t5", 0)]) ∧
    ((∃ sb, (⟨"demo-model", "t2", 0,
        .failed .transportError⟩ : RunRecord).outcome = .success sb) ∨
      ∃ f, (⟨"demo-model", "t2", 0,
        .failed .transportError⟩ : RunRecord).outcome = .failed f) := by
  constructor
  · rw [(runBatch_cross_product failingBackend 30 [demoModel] demoCorpus 1).1]
    rfl
  · exact (runBatch_cross_product failingBackend 30 [demoModel] demoCorpus 1).2
      ⟨"demo-model", "t2", 0, .failed .transportError⟩ (by decide)

/-- C9: a backend call exceeding its caller-supplied timeout is recorded as
a `timeout` Failure (not `transportError`); every raw outcome is converted at
the adapter boundary into either a success or a classified Failure; and every
adapter Failure is classified into a RunRecord by the Orchestrator rather
than propagated. -/
theorem failure_conversion :
    (∀ (st : Nat) (body : Option String) (e tmo : Rat), tmo < e →
      invoke (.response st body e) tmo = .fail .timeout ∧
        invoke (.response st body e) tmo ≠ .fail .transportError) ∧
    (∀ raw tmo, (∃ t el, invoke raw tmo = .ok t el) ∨
      ∃ f, invoke raw tmo = .fail f) ∧
    (∀ b tmo m tc i f, invoke (b m (promptFor tc)) tmo = .fail f →
      runTriple b tmo m tc i = ⟨m.name, tc.name, i, .failed f⟩) := by
  refine ⟨fun st body e tmo h => ?_, fun raw tmo => ?_, fun b tmo m tc i f h => ?_⟩
  · refine ⟨by simp [invoke, h], ?_⟩
    simp [invoke, h]
  · cases raw with
    | noConnection => exact Or.inr ⟨_, rfl⟩
    | response st body e =>
      simp only [invoke]
      by_cases h1 : tmo < e
      · rw [if_pos h1]
        exact Or.inr ⟨_, rfl⟩
      · rw [if_neg h1]
        by_cases h2 : st ≠ 200
        · rw [if_pos h2]
          exact Or.inr ⟨_, rfl⟩
        · rw [if_neg h2]
          cases body with
          | none => exact Or.inr ⟨_, rfl⟩
          | some t => exact Or.inl ⟨t, e, rfl⟩
  · unfold runTriple
    rw [h]

/-- C9 witness at a concrete input. -/
theorem failure_conversion_witness :
    (invoke (.response 200 (some "slow answer") 45) 30 = .fail .timeout ∧
      invoke (.response 200 (some "slow answer") 45) 30 ≠ .fail .transportError) ∧
    ((∃ t el, invoke .noConnection 30 = .ok t el) ∨
      ∃ f, invoke .noConnection 30 = .fail f) ∧
    runTriple failingBackend 30 demoModel (mkVulnCase "t2" "code2") 0 =
      ⟨"demo-model", "t2", 0, .failed .transportError⟩ :=
  ⟨failure_conversion.1 200 (some "slow answer") 45 30 (by decide),
   failure_conversion.2.1 .noConnection 30,
   failure_conversion.2.2 failingBackend 30 demoModel (mkVulnCase "t2" "code2")
     0 .transportError (by decide)⟩

/-- C5: a model's AggregateStats consistency is the minimum per-case score
divided by the maximum, is 0 when the maximum is 0 (no division performed),
and `minList`/`maxList` really bound every per-case score. -/
theorem consistency_min_max (recs : List RunRecord) :
    ((aggregate recs).consistency =
      if maxList (recs.filterMap recordScore) = 0 then 0
      else minList (recs.filterMap recordScore) /
        maxList (recs.filterMap recordScore)) ∧
    (maxList (recs.filterMap recordScore) = 0 →
      (aggregate recs).consistency = 0) ∧
    ∀ x ∈ recs.filterMap recordScore,
      minList (recs.filterMap recordScore) ≤ x ∧
        x ≤ maxList (recs.filterMap recordScore) := by
  refine ⟨rfl, fun h => ?_, fun x hx => ⟨minList_le_of_mem hx, le_maxList_of_mem hx⟩⟩
  show consistencyOf (recs.filterMap recordScore) = 0
  unfold consistencyOf
  rw [if_pos h]

/-- C5 witness at a concrete input. -/
theorem consistency_min_max_witness :
    (aggregate ([] : List RunRecord)).consistency = 0 ∧
    (minList (recsA.filterMap recordScore) ≤ 90 ∧
      (90 : Rat) ≤ maxList (recsA.filterMap recordScore)) :=
  ⟨(consistency_min_max []).2.1 (by decide),
   (consistency_min_max recsA).2.2 90 (by decide)⟩

/-- C7: a response text triggering no rubric category — in particular the
empty string or an error-flagged text — scores 0 with an empty finding set
(and `score` is total, so no exception is possible). -/
theorem score_no_rubric_keywords (text : String) (tc : TestCase)
    (h : ∀ c ∈ rubricFor tc, categoryAward text c = false) :
    score text tc = ⟨0, [], 0⟩ := by
  have ht : (rubricFor tc).filter (categoryAward text) = [] :=
    List.filter_eq_nil_iff.mpr (by simpa using h)
  show ScoreBreakdown.mk ((awardedCats text tc).map Category.points).sum
    ((awardedCats text tc).map Category.name) 0 = ⟨0, [], 0⟩
  unfold awardedCats
  rw [ht]
  by_cases hb : (tc.is_secure && claimsVulnerability text) = true
  · rw [if_pos hb]
    rfl
  · rw [if_neg hb]
    rfl

/-- C7 witness: the empty string and an error-flagged text both score zero on
a demo case. -/
theorem score_no_rubric_keywords_witness :
    score "" (mkVulnCase "t1" "code1") = ⟨0, [], 0⟩ ∧
    score "ERROR: connection refused" (mkVulnCase "t1" "code1") = ⟨0, [], 0⟩ :=
  ⟨score_no_rubric_keywords "" (mkVulnCase "t1" "code1") (by decide),
   score_no_rubric_keywords "ERROR: connection refused" (mkVulnCase "t1" "code1")
     (by decide)⟩

/-- C6: on an `is_secure` test case, the response "no vulnerabilities found"
alone scores 90 of the case's 100-point maximum, and any response naming a
vulnerability when none exists scores strictly below that baseline. -/
theorem secure_case_scoring (tc : TestCase) (h : tc.is_secure = true) :
    (score "no vulnerabilities found" tc).score = 90 ∧
    ((rubricFor tc).map Category.points).sum = 100 ∧
    ∀ text, claimsVulnerability text = true → (score text tc).score < 90 := by
  have hr : rubricFor tc = secureRubric := by
    unfold rubricFor
    rw [h]
    rfl
  refine ⟨?_, rubric_points_sum tc, fun text hclaim => ?_⟩
  · show ((awardedCats "no vulnerabilities found" tc).map Category.points).sum = 90
    unfold awardedCats
    rw [hr, h]
    rfl
  · show ((awardedCats text tc).map Category.points).sum < 90
    simp only [awardedCats, hr, h, hclaim, Bool.and_self, if_true,
      List.filter_filter]
    refine lt_of_le_of_lt
      (sum_points_filter_mono _ (fun c => decide (c.name ≠ "no_vulnerability"))
        secureRubric (fun c hc => by
          rw [Bool.and_eq_true] at hc
          exact hc.1)) ?_
    decide

/-- C6 witness at a concrete input. -/
theorem secure_case_scoring_witness :
    (score "no vulnerabilities found" demoSecureCase).score = 90 ∧
    (score "there is a reentrancy attack here" demoSecureCase).score < 90 :=
  ⟨(secure_case_scoring demoSecureCase rfl).1,
   (secure_case_scoring demoSecureCase rfl).2.2
     "there is a reentrancy attack here" (by decide)⟩

/-- C4: in every pairwise comparison exactly one point goes to the strictly
better model on each criterion and none to either on a tie; more
criterion-points wins; and concretely, with A (mean score 90, mean time 10 s)
and B (mean score 90, mean time 20 s), efficiency(A) = 9, efficiency(B) = 4.5,
A wins the efficiency criterion, A with everything else tied still wins the
pairwise comparison, and A is ranked first. -/
theorem ranker_pairwise :
    (∀ c a b, (critValue c a = critValue c b →
        better c a b = false ∧ better c b a = false) ∧
      (better c a b = true → better c b a = false)) ∧
    (∀ a b, critValue .accuracy a = critValue .accuracy b →
      critValue .speed a = critValue .speed b →
      critValue .consistency a = critValue .consistency b →
      critValue .efficiency b < critValue .efficiency a →
      points b a < points a b) ∧
    (∀ a b, points b a < points a b → beats a b = true) ∧
    (aggregate recsA).efficiency = 9 ∧
    (aggregate recsB).efficiency = 9 / 2 ∧
    better .efficiency (aggregate recsA) (aggregate recsB) = true ∧
    (rankModels [("A", aggregate recsA), ("B", aggregate recsB)]).map
      Prod.fst = ["A", "B"] := by
  refine ⟨fun c a b => ⟨fun h => ?_, fun h => ?_⟩,
    fun a b h1 h2 h3 h4 => ?_, fun a b h => ?_, ?_, ?_, ?_, ?_⟩
  · cases c <;> simp_all [better]
  · cases c <;> simp_all [better] <;> exact le_of_lt h
  · have b1 : better .accuracy a b = false := by simp [better, h1]
    have b1' : better .accuracy b a = false := by simp [better, h1]
    have b2 : better .speed a b = false := by simp [better, h2]
    have b2' : better .speed b a = false := by simp [better, h2]
    have b3 : better .consistency a b = false := by simp [better, h3]
    have b3' : better .consistency b a = false := by simp [better, h3]
    have b4 : better .efficiency a b = true := by
      simp [better]
      exact h4
    have b4' : better .efficiency b a = false := by
      simp [better]
      exact le_of_lt h4
    simp [points, criterionList, List.filter, b1, b1', b2, b2', b3, b3', b4, b4']
  · unfold beats
    rw [if_pos h]
  · simp only [aggregate, recsA, recordScore, recordTime, List.filterMap_cons,
      List.filterMap_nil]
    norm_num
  · simp only [aggregate, recsB, recordScore, recordTime, List.filterMap_cons,
      List.filterMap_nil]
    norm_num
  · simp only [better, critValue, aggregate, recsA, recsB, recordScore,
      recordTime, List.filterMap_cons, List.filterMap_nil]
    norm_num
  · have hp : points (aggregate recsB) (aggregate recsA) <
        points (aggregate recsA) (aggregate recsB) := by
      simp only [points, criterionList, better, critValue, aggregate, recsA,
        recsB, recordScore, recordTime, List.filterMap_cons, List.filterMap_nil]
      norm_num
    have hb : beats (aggregate recsA) (aggregate recsB) = true := by
      unfold beats
      rw [if_pos hp]
    simp [rankModels, insertRanked, hb]

/-- C4 witness at concrete inputs, including an all-else-tied pair. -/
theorem ranker_pairwise_witness :
    (better .accuracy statsTieA statsTieB = false ∧
      better .accuracy statsTieB statsTieA = false) ∧
    points statsTieB statsTieA < points statsTieA statsTieB ∧
    beats statsTieA statsTieB = true :=
  ⟨(ranker_pairwise.1 .accuracy statsTieA statsTieB).1 (by decide),
   ranker_pairwise.2.1 statsTieA statsTieB (by decide) (by decide) (by decide)
     (by decide),
   ranker_pairwise.2.2.1 statsTieA statsTieB
     (ranker_pairwise.2.1 statsTieA statsTieB (by decide) (by decide)
       (by decide) (by decide))⟩

end Slitheryn
